import Mathlib

/-!
Verification development for the spinwinny backend core:
the content-security validator (`src/security/csv_validator.py`),
the CSV import/export adapter (`src/services/csv_service.py`) and the
analytics event store (`src/services/analytics_service.py`).

Python code is shallowly embedded: dictionaries returned by the Python
functions become Lean structures whose optional keys are `Option` fields
(absent key = `none`), the SQLite tables become association lists inside an
explicit state record, machine integers are `Nat`/`Int` with explicit
`% 2 ^ 32` where overflow matters, and fallible operations are
parameterised by explicit fault flags mirroring where an exception could be
raised and which `try/except` block would catch it.
-/

/-! ## Generic list helpers -/

/-- Whether the first list starts with the second (pattern) list. -/
def listStartsWith [DecidableEq α] : List α → List α → Bool
  | _, [] => true
  | [], _ :: _ => false
  | c :: cs, p :: ps => c = p && listStartsWith cs ps

/-- Whether the pattern occurs as a contiguous subsequence of the list;
models Python's `needle in haystack` substring test. -/
def listContainsSeq [DecidableEq α] : List α → List α → Bool
  | [], pat => pat.isEmpty
  | c :: cs, pat => listStartsWith (c :: cs) pat || listContainsSeq cs pat

/-- Association-list lookup by key; models a `SELECT ... WHERE key = ?`
returning at most one row (keys are unique in every modelled table). -/
def lookupA [DecidableEq κ] (l : List (κ × α)) (k : κ) : Option α :=
  (l.find? (fun p => p.1 = k)).map (·.2)

/-- Models SQLite `INSERT OR REPLACE` on a table with a UNIQUE key: the old
row (if any) is deleted and the fresh row appended with a new rowid. -/
def upsertA [DecidableEq κ] (l : List (κ × α)) (k : κ) (v : α) : List (κ × α) :=
  l.filter (fun p => ¬(p.1 = k)) ++ [(k, v)]

/-- Insertion step for insertion sort with a boolean "goes before" test. -/
def insSorted (le : α → α → Bool) (x : α) : List α → List α
  | [] => [x]
  | y :: ys => if le x y then x :: y :: ys else y :: insSorted le x ys

/-- Insertion sort with a boolean "goes before" test; with unique sort keys
its output agrees with any correct sort, in particular Python's. -/
def sortByB (le : α → α → Bool) : List α → List α
  | [] => []
  | x :: xs => insSorted le x (sortByB le xs)

/-! ## SHA-256 over byte lists (models Python `hashlib.sha256`)

Words are `Nat` reduced mod `2 ^ 32`; bytes are `Nat` below 256. -/

def w32 : Nat := 4294967296

def rotr32 (n x : Nat) : Nat :=
  ((x >>> n) ||| (x <<< (32 - n))) % w32

def add32 (a b : Nat) : Nat := (a + b) % w32

/-- Round constants of SHA-256 (fractional parts of the cube roots of the
first 64 primes), in decimal. -/
def shaK : Array Nat := #[
  1116352408, 1899447441, 3049323471, 3921009573, 961987163,
  1508970993, 2453635748, 2870763221, 3624381080, 310598401,
  607225278, 1426881987, 1925078388, 2162078206, 2614888103,
  3248222580, 3835390401, 4022224774, 264347078, 604807628,
  770255983, 1249150122, 1555081692, 1996064986, 2554220882,
  2821834349, 2952996808, 3210313671, 3336571891, 3584528711,
  113926993, 338241895, 666307205, 773529912, 1294757372,
  1396182291, 1695183700, 1986661051, 2177026350, 2456956037,
  2730485921, 2820302411, 3259730800, 3345764771, 3516065817,
  3600352804, 4094571909, 275423344, 430227734, 506948616,
  659060556, 883997877, 958139571, 1322822218, 1537002063,
  1747873779, 1955562222, 2024104815, 2227730452, 2361852424,
  2428436474, 2756734187, 3204031479, 3329325298]

/-- Initial hash words of SHA-256, in decimal. -/
def shaH0 : Array Nat := #[
  1779033703, 3144134277, 1013904242, 2773480762,
  1359893119, 2600822924, 528734635, 1541459225]

/-- Big-endian 8-byte encoding of a natural number. -/
def be64 (n : Nat) : List Nat :=
  [(n >>> 56) % 256, (n >>> 48) % 256, (n >>> 40) % 256, (n >>> 32) % 256,
   (n >>> 24) % 256, (n >>> 16) % 256, (n >>> 8) % 256, n % 256]

/-- SHA-256 padding: append 0x80, zeros, and the 64-bit big-endian bit
length so the total length is a multiple of 64 bytes. -/
def shaPad (msg : List Nat) : List Nat :=
  let len := msg.length
  let z := (64 + 56 - (len + 1) % 64) % 64
  msg ++ [0x80] ++ List.replicate z 0 ++ be64 (len * 8)

/-- Split a byte list into 64-byte chunks. -/
def chunks64 : List Nat → List (List Nat)
  | [] => []
  | c :: cs => (c :: cs).take 64 :: chunks64 ((c :: cs).drop 64)
  termination_by l => l.length
  decreasing_by simp [List.length_drop]; omega

/-- Combine groups of four bytes into big-endian 32-bit words. -/
def bytesToWords : List Nat → List Nat
  | b0 :: b1 :: b2 :: b3 :: rest =>
      (b0 <<< 24 ||| b1 <<< 16 ||| b2 <<< 8 ||| b3) :: bytesToWords rest
  | _ => []

/-- Extend the 16 message words to the 64-entry SHA-256 message schedule. -/
def shaSchedule (ws : Array Nat) : Array Nat :=
  (List.range 48).foldl (fun a j =>
    let i := j + 16
    let x15 := a.getD (i - 15) 0
    let x2 := a.getD (i - 2) 0
    let s0 := rotr32 7 x15 ^^^ rotr32 18 x15 ^^^ (x15 >>> 3)
    let s1 := rotr32 17 x2 ^^^ rotr32 19 x2 ^^^ (x2 >>> 10)
    a.push ((a.getD (i - 16) 0 + s0 + a.getD (i - 7) 0 + s1) % w32)) ws

/-- One SHA-256 compression round. -/
def shaRound (w : Array Nat) (st : Array Nat) (i : Nat) : Array Nat :=
  let a := st.getD 0 0
  let b := st.getD 1 0
  let c := st.getD 2 0
  let d := st.getD 3 0
  let e := st.getD 4 0
  let f := st.getD 5 0
  let g := st.getD 6 0
  let h := st.getD 7 0
  let s1 := rotr32 6 e ^^^ rotr32 11 e ^^^ rotr32 25 e
  let ch := (e &&& f) ^^^ ((w32 - 1 - e) &&& g)
  let t1 := (h + s1 + ch + shaK.getD i 0 + w.getD i 0) % w32
  let s0 := rotr32 2 a ^^^ rotr32 13 a ^^^ rotr32 22 a
  let maj := (a &&& b) ^^^ (a &&& c) ^^^ (b &&& c)
  let t2 := (s0 + maj) % w32
  #[(t1 + t2) % w32, a, b, c, (d + t1) % w32, e, f, g]

/-- Process one 64-byte chunk, updating the eight hash words. -/
def shaChunk (h : Array Nat) (chunk : List Nat) : Array Nat :=
  let w := shaSchedule (List.toArray (bytesToWords chunk))
  let st := (List.range 64).foldl (shaRound w) h
  (List.range 8).toArray.map (fun i => add32 (h.getD i 0) (st.getD i 0))

/-- SHA-256 digest of a byte list, as a 32-byte list. -/
def sha256bytes (msg : List Nat) : List Nat :=
  let hf := (chunks64 (shaPad msg)).foldl shaChunk shaH0
  (List.range 8).flatMap (fun i =>
    let x := hf.getD i 0
    [(x >>> 24) % 256, (x >>> 16) % 256, (x >>> 8) % 256, x % 256])

def hexDigit (n : Nat) : Char :=
  if n < 10 then Char.ofNat (48 + n) else Char.ofNat (87 + n)

def byteToHex (b : Nat) : List Char := [hexDigit (b / 16), hexDigit (b % 16)]

/-- Lowercase hexadecimal rendering of a byte list, as `hexdigest()` does. -/
def bytesToHex (bs : List Nat) : String := ⟨bs.flatMap byteToHex⟩

/-- UTF-8 encoding of a character sequence (models `str.encode('utf-8')`). -/
def utf8Bytes : List Char → List Nat
  | [] => []
  | c :: cs =>
    let n := c.toNat
    (if n < 128 then [n]
     else if n < 2048 then [192 + n / 64, 128 + n % 64]
     else if n < 65536 then [224 + n / 4096, 128 + n / 64 % 64, 128 + n % 64]
     else [240 + n / 262144, 128 + n / 4096 % 64, 128 + n / 64 % 64, 128 + n % 64])
      ++ utf8Bytes cs

/-- Models `hashlib.sha256(s.encode('utf-8')).hexdigest()`. -/
def sha256hex (s : String) : String :=
  bytesToHex (sha256bytes (utf8Bytes s.toList))

/-! ## Structural string helpers

Python string primitives are embedded as structural functions over the
character list so that every definition evaluates by kernel reduction. -/

/-- ASCII whitespace trimming at both ends (models `str.strip()`). -/
def trimL (cs : List Char) : List Char :=
  ((cs.dropWhile Char.isWhitespace).reverse.dropWhile Char.isWhitespace).reverse

def strTrim (s : String) : String := ⟨trimL s.toList⟩

/-- Models `str.lower()` over the ASCII range. -/
def strToLower (s : String) : String := ⟨s.toList.map Char.toLower⟩

/-- Models `str.endswith(pat)`. -/
def endsWithL (s pat : String) : Bool :=
  listStartsWith s.toList.reverse pat.toList.reverse

/-- Split a character list on a separator character (models `str.split(sep)`
for a one-character separator: the empty input yields one empty group). -/
def splitOnCharL (sep : Char) : List Char → List (List Char)
  | [] => [[]]
  | c :: cs =>
    if c = sep then [] :: splitOnCharL sep cs
    else match splitOnCharL sep cs with
      | [] => [[c]]
      | g :: gs => (c :: g) :: gs

/-! ## JSON values and canonical serialization

Models the payload dictionaries handed to the analytics service and
Python's `json.dumps(data, sort_keys=True)` (default separators,
`ensure_ascii=True`). Numbers are modelled as integers. -/

inductive Json where
  | null : Json
  | bool (b : Bool) : Json
  | num (n : Int) : Json
  | str (s : String) : Json
  | arr (xs : List Json) : Json
  | obj (xs : List (String × Json)) : Json

/-- Python truthiness of a JSON-modelled value (`if value:`). -/
def jsonTruthy : Json → Bool
  | .null => false
  | .bool b => b
  | .num n => n != 0
  | .str s => s != ""
  | .arr xs => !xs.isEmpty
  | .obj xs => !xs.isEmpty

def backslashChar : Char := Char.ofNat 92

def doubleQuoteChar : Char := Char.ofNat 34

def hex4 (n : Nat) : List Char :=
  [hexDigit (n / 4096 % 16), hexDigit (n / 256 % 16),
   hexDigit (n / 16 % 16), hexDigit (n % 16)]

/-- Unicode escape as emitted by `json.dumps` with `ensure_ascii=True`:
basic-plane code points as `\uXXXX`, astral ones as a surrogate pair. -/
def jsonUEscape (n : Nat) : List Char :=
  if n < 65536 then backslashChar :: 'u' :: hex4 n
  else
    let m := n - 65536
    (backslashChar :: 'u' :: hex4 (55296 + m / 1024)) ++
      (backslashChar :: 'u' :: hex4 (56320 + m % 1024))

/-- Escaping of one character inside a JSON string literal. -/
def jsonEscapeChar (c : Char) : List Char :=
  if c = doubleQuoteChar then [backslashChar, doubleQuoteChar]
  else if c = backslashChar then [backslashChar, backslashChar]
  else if c = Char.ofNat 10 then [backslashChar, 'n']
  else if c = Char.ofNat 13 then [backslashChar, 'r']
  else if c = Char.ofNat 9 then [backslashChar, 't']
  else if c = Char.ofNat 8 then [backslashChar, 'b']
  else if c = Char.ofNat 12 then [backslashChar, 'f']
  else if c.toNat < 32 || c.toNat > 126 then jsonUEscape c.toNat
  else [c]

/-- Quoted JSON string literal. -/
def jsonQuote (s : String) : String :=
  ⟨doubleQuoteChar :: s.toList.flatMap jsonEscapeChar ++ [doubleQuoteChar]⟩

mutual

/-- Plain (unsorted) `json.dumps` rendering with the default separators. -/
def jsonDumpsRaw : Json → String
  | .null => "null"
  | .bool true => "true"
  | .bool false => "false"
  | .num n => toString n
  | .str s => jsonQuote s
  | .arr xs => "[" ++ jsonDumpsList xs ++ "]"
  | .obj xs => "\x7b" ++ jsonDumpsObj xs ++ "\x7d"

def jsonDumpsList : List Json → String
  | [] => ""
  | [x] => jsonDumpsRaw x
  | x :: y :: xs => jsonDumpsRaw x ++ ", " ++ jsonDumpsList (y :: xs)

def jsonDumpsObj : List (String × Json) → String
  | [] => ""
  | [(k, v)] => jsonQuote k ++ ": " ++ jsonDumpsRaw v
  | (k, v) :: q :: xs => jsonQuote k ++ ": " ++ jsonDumpsRaw v ++ ", " ++ jsonDumpsObj (q :: xs)

end

/-- Boolean key comparison used when sorting object entries. -/
def keyLeB (p q : String × Json) : Bool := decide (p.1 ≤ q.1)

mutual

/-- Recursively sort every object's entries by key, so that serializing the
result equals `json.dumps(data, sort_keys=True)` on the original. -/
def jsonSortKeys : Json → Json
  | .null => .null
  | .bool b => .bool b
  | .num n => .num n
  | .str s => .str s
  | .arr xs => .arr (jsonSortList xs)
  | .obj xs => .obj (sortByB keyLeB (jsonSortObjVals xs))

def jsonSortList : List Json → List Json
  | [] => []
  | x :: xs => jsonSortKeys x :: jsonSortList xs

def jsonSortObjVals : List (String × Json) → List (String × Json)
  | [] => []
  | (k, v) :: xs => (k, jsonSortKeys v) :: jsonSortObjVals xs

end

/-- Models `json.dumps(data, sort_keys=True)`. -/
def jsonDumpsCanonical (j : Json) : String := jsonDumpsRaw (jsonSortKeys j)

/-- Payload dictionary type: insertion-ordered key/value pairs, as a Python
dict (keys are unique in any value a dict can take). -/
def EventData : Type := List (String × Json)

/-- Models Python `dict.get(key)` (returning `None` when absent). -/
def dataGet (d : EventData) (k : String) : Option Json := lookupA d k

/-! ## CSV parsing

Models `csv.reader(io.StringIO(content))` with the default dialect,
restricted to inputs without quoted fields: records are split on line
breaks (a trailing line break does not produce an extra record, a blank
line produces an empty record) and fields on commas. -/

def parseCsvLine (l : List Char) : List String :=
  let l := if l.getLast? = some '\r' then l.dropLast else l
  if l = [] then [] else (splitOnCharL ',' l).map (fun g => (⟨g⟩ : String))

def parseCsv (content : String) : List (List String) :=
  if content = "" then []
  else
    let ls := splitOnCharL '\n' content.toList
    let ls := if ls.getLast? = some [] then ls.dropLast else ls
    ls.map parseCsvLine

/-! ## Content Security Validator (`src/security/csv_validator.py`)

The `_check_*` helpers keep their source names without the leading
underscore. The regular expressions of the source are embedded as direct
decidable scanning functions with the same `re.search` semantics
(IGNORECASE via lowercasing, DOTALL implicit as the scanners ignore line
structure); `\w` and `\s` are modelled over their ASCII ranges. -/

namespace SecureCSVValidator

def singleQuoteChar : Char := Char.ofNat 39

def DANGEROUS_PREFIXES : List String := ["=", "+", "-", "@", "\t=", "\r=", "\n="]

def DANGEROUS_FUNCTIONS : List String :=
  ["cmd", "exec", "system", "shell", "powershell", "bash",
   "eval", "javascript", "vbscript", "macro", "formula"]

def lowerChars (s : String) : List Char := s.toList.map Char.toLower

def wordChar (c : Char) : Bool := c.isAlphanum || c = '_'

/-- Search for `<name[^>]*>` anywhere in the character list. -/
def openTagMatchL (name : List Char) : List Char → Bool
  | [] => false
  | c :: cs =>
      (listStartsWith (c :: cs) ('<' :: name) &&
        ((c :: cs).drop (name.length + 1)).contains '>')
      || openTagMatchL name cs

/-- Search for `<name[^>]*>.*?</name>` anywhere in the character list. -/
def pairTagMatchL (name : List Char) : List Char → Bool
  | [] => false
  | c :: cs =>
      (listStartsWith (c :: cs) ('<' :: name) &&
        (match ((c :: cs).drop (name.length + 1)).dropWhile (fun x => !(x = '>')) with
         | [] => false
         | _ :: after => listContainsSeq after ('<' :: '/' :: name ++ ['>'])))
      || pairTagMatchL name cs

/-- Search for the event-handler shape `on\w+\s*=` anywhere. -/
def onAttrMatchL : List Char → Bool
  | [] => false
  | c :: cs =>
      (listStartsWith (c :: cs) ['o', 'n'] &&
        (let w := (cs.drop 1).takeWhile wordChar
         !w.isEmpty &&
           (match ((cs.drop 1).drop w.length).dropWhile Char.isWhitespace with
            | '=' :: _ => true
            | _ => false)))
      || onAttrMatchL cs

/-- Models `self.xss_regex.search(cell)` for the ten XSS_PATTERNS combined
with IGNORECASE and DOTALL: true iff some pattern matches somewhere. -/
def xssSearch (cell : String) : Bool :=
  let lc := lowerChars cell
  pairTagMatchL ("script".toList) lc ||
  listContainsSeq lc ("javascript:".toList) ||
  listContainsSeq lc ("vbscript:".toList) ||
  onAttrMatchL lc ||
  openTagMatchL ("iframe".toList) lc ||
  openTagMatchL ("object".toList) lc ||
  openTagMatchL ("embed".toList) lc ||
  openTagMatchL ("link".toList) lc ||
  openTagMatchL ("meta".toList) lc ||
  pairTagMatchL ("style".toList) lc

/-- Search for the spreadsheet-formula shape `=\s*[A-Z]+\s*\(` with
IGNORECASE anywhere in the cell. -/
def formulaSearchL : List Char → Bool
  | [] => false
  | c :: cs =>
      (c = '=' &&
        (let r1 := cs.dropWhile Char.isWhitespace
         let a := r1.takeWhile Char.isAlpha
         !a.isEmpty &&
           (match (r1.drop a.length).dropWhile Char.isWhitespace with
            | '(' :: _ => true
            | _ => false)))
      || formulaSearchL cs

def formulaSearch (cell : String) : Bool := formulaSearchL cell.toList

def isHexDigitChar (c : Char) : Bool :=
  c.isDigit || (97 ≤ c.toNat && c.toNat ≤ 102) || (65 ≤ c.toNat && c.toNat ≤ 70)

def hexCharVal (c : Char) : Nat :=
  if c.isDigit then c.toNat - 48
  else if 97 ≤ c.toNat then c.toNat - 87
  else c.toNat - 55

def hexVal (ds : List Char) : Nat := ds.foldl (fun a c => a * 16 + hexCharVal c) 0

def decVal (ds : List Char) : Nat := ds.foldl (fun a c => a * 10 + (c.toNat - 48)) 0

def namedEntities : List (List Char × Char) :=
  [("lt".toList, '<'), ("gt".toList, '>'), ("amp".toList, '&'),
   ("quot".toList, doubleQuoteChar), ("apos".toList, singleQuoteChar)]

/-- Try to read one character reference right after an ampersand, returning
the decoded character and the remaining input. -/
def parseEntity (cs : List Char) : Option (Char × List Char) :=
  match cs with
  | '#' :: rest =>
    match rest with
    | x :: rest2 =>
      if x = 'x' || x = 'X' then
        let ds := rest2.takeWhile isHexDigitChar
        if ds.isEmpty then none
        else match rest2.drop ds.length with
          | ';' :: after => some (Char.ofNat (hexVal ds), after)
          | _ => none
      else
        let ds := rest.takeWhile Char.isDigit
        if ds.isEmpty then none
        else match rest.drop ds.length with
          | ';' :: after => some (Char.ofNat (decVal ds), after)
          | _ => none
    | [] => none
  | _ =>
    match namedEntities.find? (fun e => listStartsWith cs (e.1 ++ [';'])) with
    | some e => some (e.2, cs.drop (e.1.length + 1))
    | none => none

/-- Fuelled scanner for `htmlUnescape`; the fuel (the input length) always
suffices because every step consumes at least one character. -/
def htmlUnescapeGo : Nat → List Char → List Char
  | 0, cs => cs
  | _ + 1, [] => []
  | fuel + 1, c :: cs =>
    if c = '&' then
      match parseEntity cs with
      | some (ch, rest) => ch :: htmlUnescapeGo fuel rest
      | none => c :: htmlUnescapeGo fuel cs
    else c :: htmlUnescapeGo fuel cs

/-- Models `html.unescape(cell)`, covering semicolon-terminated decimal and
hexadecimal character references and the common named entities used by the
spec; other ampersands pass through unchanged. -/
def htmlUnescape (s : String) : String :=
  ⟨htmlUnescapeGo s.toList.length s.toList⟩

/-- Models `_check_csv_injection`: dangerous prefix first, then dangerous
keyword (first match in list order wins), then the formula pattern. -/
def check_csv_injection (cell : String) : Option String :=
  if cell = "" then none
  else
    match DANGEROUS_PREFIXES.find? (fun p => listStartsWith (trimL cell.toList) p.toList) with
    | some p => some ("dangerous_prefix_" ++ strTrim p)
    | none =>
      match DANGEROUS_FUNCTIONS.find? (fun f => listContainsSeq (lowerChars cell) f.toList) with
      | some f => some ("dangerous_function_" ++ f)
      | none => if formulaSearch cell then some "formula_pattern" else none

def SUSPICIOUS_CHARS : List Char :=
  ['<', '>', doubleQuoteChar, singleQuoteChar, '&', '%', backslashChar]

/-- Models `_check_xss_payload`: direct pattern search, then decode-and-search,
then the suspicious-character tally, which counts how many of the seven
characters occur in the cell at least once (`1 for char in suspicious_chars
if char in cell`), not occurrence positions. -/
def check_xss_payload (cell : String) : Option String :=
  if cell = "" then none
  else if xssSearch cell then some "xss_pattern_detected"
  else
    let decoded := htmlUnescape cell
    if decoded != cell && xssSearch decoded then some "encoded_xss_payload"
    else if 3 < (SUSPICIOUS_CHARS.filter (fun c => cell.toList.contains c)).length then
      some "suspicious_character_sequence"
    else none

structure SecurityIssue where
  issue_type : String
  location : String
  content : String
  risk : String
deriving DecidableEq

/-- Outcome dictionary of the validator operations; absent keys are `none`
or `[]`. -/
structure VResult where
  valid : Bool
  error : Option String := none
  security_risk : Option String := none
  security_issues : List SecurityIssue := []
  file_size : Option Nat := none
  file_hash : Option String := none
  rows_processed : Option Nat := none
  security_checks_passed : Option Bool := none
deriving DecidableEq

def locStr (rn cn : Nat) : String :=
  "Row " ++ toString rn ++ ", Column " ++ toString cn

def truncCell (cell : String) : String :=
  if 50 < cell.length then cell.take 50 ++ "..." else cell

/-- All issues a single cell contributes (empty cells are skipped; the three
checks are independent, no short-circuit). -/
def cellIssues (rn cn : Nat) (cell : String) : List SecurityIssue :=
  if cell = "" then []
  else
    (match check_csv_injection cell with
     | some r => [⟨"csv_injection", locStr rn cn, truncCell cell, r⟩]
     | none => []) ++
    (match check_xss_payload cell with
     | some r => [⟨"xss_payload", locStr rn cn, truncCell cell, r⟩]
     | none => []) ++
    (if 1000 < cell.length then
       [⟨"excessive_length", locStr rn cn,
         "Cell length: " ++ toString cell.length ++ " characters",
         "potential_buffer_overflow"⟩]
     else [])

def rowIssues (rn : Nat) : Nat → List String → List SecurityIssue
  | _, [] => []
  | cn, c :: cs => cellIssues rn cn c ++ rowIssues rn (cn + 1) cs

def allIssues : Nat → List (List String) → List SecurityIssue
  | _, [] => []
  | rn, r :: rs => rowIssues rn 1 r ++ allIssues (rn + 1) rs

def firstWideRow (limit : Nat) : Nat → List (List String) → Option (Nat × Nat)
  | _, [] => none
  | i, r :: rs => if limit < r.length then some (i, r.length) else firstWideRow limit (i + 1) rs

/-- Models `_validate_csv_structure`. The `csv.Error`/`malformed_csv`
branch is unreachable in the model because the embedded parser is total. -/
def validate_csv_structure (content : String) : VResult :=
  let rows := parseCsv content
  if rows.isEmpty then
    { valid := false, error := some "CSV file is empty",
      security_risk := some "empty_file" }
  else
    match firstWideRow 50 0 rows with
    | some (i, n) =>
      { valid := false,
        error := some ("Row " ++ toString (i + 1) ++ " has too many columns (" ++
          toString n ++ "). Maximum allowed: 50"),
        security_risk := some "excessive_columns" }
    | none =>
      if 10000 < rows.length then
        { valid := false,
          error := some ("File has too many rows (" ++ toString rows.length ++
            "). Maximum allowed: 10000"),
          security_risk := some "excessive_rows" }
      else { valid := true, rows_processed := some rows.length }

/-- Models `_validate_content_security`. -/
def validate_content_security (content : String) : VResult :=
  let issues := allIssues 1 (parseCsv content)
  if issues.isEmpty then { valid := true }
  else
    { valid := false,
      error := some ("Security threats detected: " ++ toString issues.length ++
        " issues found"),
      security_risk := some "content_threats",
      security_issues := issues }

/-- Stated from the spec words of the suspicious-character rule (for
comparison with the code): the number of distinct-position occurrences of
the seven suspicious characters in the cell. -/
def specSuspiciousOccurrences (cell : String) : Nat :=
  (cell.toList.filter (fun c => SUSPICIOUS_CHARS.contains c)).length

def max_file_size : Nat := 10485760

/-- Models `validate_file_security`. The encoding check is unreachable in
the model because Lean strings are always valid Unicode scalar sequences
(a Python `str` fails UTF-8 encoding only on lone surrogates). -/
def validate_file_security (content : String) (filename : String) : VResult :=
  let file_size := (utf8Bytes content.toList).length
  if max_file_size < file_size then
    { valid := false,
      error := some ("File size (" ++ toString file_size ++
        " bytes) exceeds maximum limit (" ++ toString max_file_size ++ " bytes)"),
      security_risk := some "file_size_exceeded" }
  else if filename != "" && !(endsWithL (strToLower filename) ".csv") then
    { valid := false,
      error := some "Invalid file extension. Only .csv files are allowed.",
      security_risk := some "invalid_extension" }
  else
    let csv_validation := validate_csv_structure content
    if !csv_validation.valid then csv_validation
    else
      let security_validation := validate_content_security content
      if !security_validation.valid then security_validation
      else
        { valid := true, file_size := some file_size,
          file_hash := some (sha256hex content),
          rows_processed := some (csv_validation.rows_processed.getD 0),
          security_checks_passed := some true }

end SecureCSVValidator

/-! ## CSV Import/Export Adapter (`src/services/csv_service.py`) -/

namespace CSVService

def max_file_size : Nat := 10485760

/-- Outcome dictionary of `validate_csv_file`; absent keys are `none`/`[]`. -/
structure CsvResult where
  valid : Bool
  error : Option String := none
  entries : List String := []
  total_rows : Option Nat := none
  valid_entries : Option Nat := none
  errors : List String := []
deriving DecidableEq

/-- Models the header scan inside `validate_csv_file`: the first header
equal to `entry` or `name` whose index is within the row yields that row
cell stripped; otherwise the entry name stays empty. -/
def findEntryName (row : List String) : Nat → List String → String
  | _, [] => ""
  | j, h :: hs =>
    if (h = "entry" || h = "name") && j < row.length then strTrim (row.getD j "")
    else findEntryName row (j + 1) hs

/-- Whether a parsed data row is skipped: Python's
`not row or all(cell.strip() == '' for cell in row)` (the `all` is
vacuously true on an empty row). -/
def blankRow (row : List String) : Bool := row.all (fun c => strTrim c = "")

/-- Models the data-row loop of `validate_csv_file`, accumulating the valid
entry names and the per-row error strings; `i` is the reported row number
(the loop enumerates from 2, counting blank rows too). -/
def processRowsFrom (headers : List String) : Nat → List (List String) → List String × List String
  | _, [] => ([], [])
  | i, row :: rest =>
    let acc := processRowsFrom headers (i + 1) rest
    if blankRow row then acc
    else
      let entry_name := findEntryName row 0 headers
      if entry_name = "" then
        (acc.1, ("Row " ++ toString i ++ ": Missing entry name") :: acc.2)
      else if 100 < entry_name.length then
        (acc.1, ("Row " ++ toString i ++ ": Entry name too long (max 100 characters)") :: acc.2)
      else (entry_name :: acc.1, acc.2)

/-- Row-level body of `validate_csv_file`, from the emptiness check on. -/
def validateCsvRows (rows : List (List String)) : CsvResult :=
  match rows with
  | [] => { valid := false, error := some "CSV file is empty" }
  | header :: dataRows =>
    let headers := header.map (fun h => strToLower (strTrim h))
    if !(headers.contains "entry" || headers.contains "name") then
      { valid := false,
        error := some "CSV must contain at least one column named \"entry\" or \"name\"" }
    else
      let res := processRowsFrom headers 2 dataRows
      if res.1.isEmpty then
        { valid := false, error := some "No valid entries found in CSV" }
      else
        { valid := true, entries := res.1,
          total_rows := some (rows.length - 1),
          valid_entries := some res.1.length, errors := res.2 }

/-- Models `validate_csv_file` (size cap, then parse, then row logic). -/
def validate_csv_file (content : String) : CsvResult :=
  if max_file_size < (utf8Bytes content.toList).length then
    { valid := false, error := some "File size exceeds maximum limit of 10MB" }
  else validateCsvRows (parseCsv content)

/-- Outcome of `validate_data_integrity`; the score is modelled in `ℚ`
(the Python float quotient `len/len` is exact for these values). -/
structure IntegrityReport where
  passed : Bool
  original_count : Nat
  processed_count : Nat
  missing_entries : List String
  extra_entries : List String
  integrity_score : ℚ

/-- Models `validate_data_integrity`: Python sets become deduplicated
lists, set difference and intersection become filters over them. -/
def validate_data_integrity (original_data processed_data : List String) : IntegrityReport :=
  let original_set := original_data.dedup
  let processed_set := processed_data.dedup
  let missing_entries := original_set.filter (fun a => !processed_set.contains a)
  let extra_entries := processed_set.filter (fun a => !original_set.contains a)
  { passed := missing_entries.length = 0 && extra_entries.length = 0,
    original_count := original_data.length,
    processed_count := processed_data.length,
    missing_entries := missing_entries,
    extra_entries := extra_entries,
    integrity_score :=
      if original_data ≠ [] then
        ((processed_set.filter (fun a => original_set.contains a)).length : ℚ) /
          (original_set.length : ℚ)
      else 1 }

end CSVService

/-! ## Analytics Event Store (`src/services/analytics_service.py`)

The four SQLite tables become association lists in an explicit state
record; `INSERT OR REPLACE` on a UNIQUE key becomes `upsertA`. Timestamps
are abstract `Nat` clock values passed in as `now` (the source uses
`datetime.now()`); `DATE(timestamp)` becomes division by a day length.
Exception behaviour is mirrored with explicit fault flags: `insertFails`
models an exception before `record_event`'s first commit (caught by
`record_event`'s own handler), `updateFails` one inside `_update_metrics`
(caught there, before its commit, so the metrics write is lost while
`record_event` still returns normally). -/

namespace AnalyticsService

structure EventRow where
  event_type : String
  event_data : EventData
  wheel_id : Option String
  user_id : Option String
  session_id : Option String
  timestamp : Nat
  ip_address : Option String
  user_agent : Option String
  data_hash : String

/-- One `wheel_metrics` row. `wheel_title` and `total_entries` keep the raw
payload values (SQLite stores them with flexible typing). -/
structure WheelRow where
  wheel_title : Json
  total_spins : Nat
  unique_users : Nat
  total_entries : Json
  created_at : Nat
  updated_at : Nat

structure WinnerRow where
  frequency_count : Nat
  last_won : Nat

structure UserRow where
  first_visit : Nat
  last_visit : Nat
  total_spins : Nat
  total_wheels_created : Nat
  total_time_spent : Nat
  engagement_score : ℚ

structure AnalyticsState where
  events : List EventRow
  wheel_metrics : List (String × WheelRow)
  winner_frequency : List ((String × String) × WinnerRow)
  user_engagement : List ((String × String) × UserRow)

def emptyState : AnalyticsState := ⟨[], [], [], []⟩

/-- Python truthiness of an optional string argument. -/
def optTruthy : Option String → Bool
  | some s => s != ""
  | none => false

/-- Models `SELECT COUNT(DISTINCT user_id) FROM analytics_events WHERE
wheel_id = ? AND event_type = 'wheel_spin'`: the number of distinct
non-NULL `user_id` values over that wheel's spin events. -/
def distinctSpinUsers (events : List EventRow) (w : String) : Nat :=
  (((events.filter (fun e => decide (e.wheel_id = some w ∧ e.event_type = "wheel_spin"))).filterMap
      (·.user_id)).dedup).length

/-- The winner name recorded by `_update_metrics`: the payload's `winner`
value when truthy (`if winner:`). SQLite stores the raw value; non-string
truthy winners are rendered by their serialization in the model (every
claim uses string winners). -/
def winnerOf (d : EventData) : Option String :=
  match dataGet d "winner" with
  | none => none
  | some v =>
    if jsonTruthy v then
      some (match v with
            | Json.str s => s
            | _ => jsonDumpsRaw v)
    else none

/-- Models `_update_metrics` on success (its exception path is handled by
the caller embedding via the `updateFails` flag). -/
def update_metrics (st : AnalyticsState) (event_type : String) (event_data : EventData)
    (wheel_id user_id session_id : Option String) (now : Nat) : AnalyticsState :=
  let st1 :=
    match wheel_id with
    | some w =>
      if event_type = "wheel_spin" && w != "" then
        let prior := lookupA st.wheel_metrics w
        let row : WheelRow :=
          { wheel_title := (dataGet event_data "wheel_title").getD (Json.str ""),
            total_spins := (prior.map (·.total_spins)).getD 0 + 1,
            unique_users := distinctSpinUsers st.events w,
            total_entries := (dataGet event_data "total_entries").getD (Json.num 0),
            created_at := now, updated_at := now }
        let st' := { st with wheel_metrics := upsertA st.wheel_metrics w row }
        match winnerOf event_data with
        | some winner =>
          let pf := lookupA st'.winner_frequency (w, winner)
          let wrow : WinnerRow :=
            { frequency_count := (pf.map (·.frequency_count)).getD 0 + 1,
              last_won := now }
          { st' with winner_frequency := upsertA st'.winner_frequency (w, winner) wrow }
        | none => st'
      else st
    | none => st
  match user_id, session_id with
  | some u, some sid =>
    if u != "" && sid != "" then
      let pe := lookupA st1.user_engagement (u, sid)
      let urow : UserRow :=
        { first_visit := (pe.map (·.first_visit)).getD now,
          last_visit := now,
          total_spins := (pe.map (·.total_spins)).getD 0 +
            (if event_type = "wheel_spin" then 1 else 0),
          total_wheels_created := (pe.map (·.total_wheels_created)).getD 0 +
            (if event_type = "wheel_created" then 1 else 0),
          total_time_spent := 0,
          engagement_score := (pe.map (·.engagement_score)).getD 0 + 1 }
      { st1 with user_engagement := upsertA st1.user_engagement (u, sid) urow }
    else st1
  | _, _ => st1

/-- Models `record_event`. An insert-time exception is caught by
`record_event` itself (returning `False` with no state change); an
exception inside `_update_metrics` is caught there, so the event stays
inserted and `record_event` still returns `True`. -/
def record_event (st : AnalyticsState) (event_type : String) (event_data : EventData)
    (wheel_id user_id session_id ip_address user_agent : Option String)
    (now : Nat) (insertFails updateFails : Bool) : Bool × AnalyticsState :=
  if insertFails then (false, st)
  else
    let timestamp := now
    let event_data_json := jsonDumpsCanonical (Json.obj event_data)
    let data_hash := sha256hex (event_type ++ event_data_json ++ toString timestamp)
    let st1 : AnalyticsState :=
      { st with events := st.events ++
          [{ event_type, event_data, wheel_id, user_id, session_id,
             timestamp, ip_address, user_agent, data_hash }] }
    if updateFails then (true, st1)
    else (true, update_metrics st1 event_type event_data wheel_id user_id session_id now)

def secondsPerDay : Nat := 86400

/-- Models SQLite `DATE(timestamp)` over the abstract clock. -/
def dateOf (t : Nat) : Nat := t / secondsPerDay

structure MetricsView where
  total_spins : Nat
  unique_users : Nat
  total_entries : Json
  created_at : Nat
  updated_at : Nat

structure WinnerEntry where
  winner : String
  count : Nat
  last_won : Nat

structure SpinView where
  timestamp : Nat
  winner : Option Json
  spin_duration : Option Json
  user_id : Json

/-- Report dictionary of `get_wheel_analytics`; on the not-found path only
`error` is present. -/
structure WheelReport where
  error : Option String := none
  wheel_id : Option String := none
  metrics : Option MetricsView := none
  daily_activity : List (Nat × Nat) := []
  winner_distribution : List WinnerEntry := []
  recent_spins : List SpinView := []
  analysis_period : Option String := none
  generated_at : Option Nat := none

/-- Models `get_wheel_analytics`. The call only issues SELECT statements;
the state is returned unchanged to make that frame condition statable. -/
def get_wheel_analytics (st : AnalyticsState) (wheel_id : String) (days now : Nat) :
    WheelReport × AnalyticsState :=
  let start_date := now - days * secondsPerDay
  match lookupA st.wheel_metrics wheel_id with
  | none => ({ error := some "Wheel not found" }, st)
  | some m =>
    let spins := st.events.filter
      (fun e => decide (e.wheel_id = some wheel_id ∧ e.event_type = "wheel_spin"))
    let windowSpins := spins.filter
      (fun e => decide (start_date ≤ e.timestamp ∧ e.timestamp ≤ now))
    let dates := windowSpins.map (fun e => dateOf e.timestamp)
    let daily_activity := (sortByB (fun a b => decide (a ≤ b)) dates.dedup).map
      (fun d => (d, (dates.filter (fun x => decide (x = d))).length))
    let winner_distribution :=
      ((sortByB (fun p q => decide (q.2.frequency_count ≤ p.2.frequency_count))
          (st.winner_frequency.filter (fun p => decide (p.1.1 = wheel_id)))).take 20).map
        (fun p => { winner := p.1.2, count := p.2.frequency_count,
                    last_won := p.2.last_won })
    let recent_spins :=
      ((sortByB (fun a b => decide (b.timestamp ≤ a.timestamp)) spins).take 50).map
        (fun e => { timestamp := e.timestamp,
                    winner := dataGet e.event_data "winner",
                    spin_duration := dataGet e.event_data "spin_duration",
                    user_id := (dataGet e.event_data "user_id").getD (Json.str "Anonymous") })
    ({ error := none, wheel_id := some wheel_id,
       metrics := some ⟨m.total_spins, m.unique_users, m.total_entries,
                        m.created_at, m.updated_at⟩,
       daily_activity, winner_distribution, recent_spins,
       analysis_period := some (toString days ++ " days"),
       generated_at := some now }, st)

/-- Models `verify_data_integrity`: recompute the canonical sorted-keys
hash of the dictionary and compare with the expected digest. The
`except` branch is unreachable in the model (serialization of the
modelled values never raises). -/
def verify_data_integrity (data : EventData) (expected_hash : String) : Bool :=
  sha256hex (jsonDumpsCanonical (Json.obj data)) == expected_hash

/-- State after the spec's three-spin scenario: three `wheel_spin` events
on wheel `w1`, payload `winner='Alice', total_entries=5`, three distinct
user ids, at clock values 0, 1, 2. -/
def spinThriceState : AnalyticsState :=
  let d : EventData := [("winner", Json.str "Alice"), ("total_entries", Json.num 5)]
  (record_event
    ((record_event
      ((record_event emptyState "wheel_spin" d (some "w1") (some "u1")
        none none none 0 false false).2)
      "wheel_spin" d (some "w1") (some "u2") none none none 1 false false).2)
    "wheel_spin" d (some "w1") (some "u3") none none none 2 false false).2

end AnalyticsService

/-! ## Helper lemmas -/

theorem lookupA_upsert_self [DecidableEq κ] (l : List (κ × α)) (k : κ) (v : α) :
    lookupA (upsertA l k v) k = some v := by
  induction l with
  | nil => simp [lookupA, upsertA]
  | cons p t ih =>
    by_cases h : p.1 = k
    · rw [upsertA, List.filter_cons, if_neg (by simp [h])]
      exact ih
    · rw [upsertA, List.filter_cons, if_pos (by simp [h]), lookupA, List.cons_append,
        List.find?_cons_of_neg _ (by simp [h])]
      exact ih

theorem insSorted_perm (le : α → α → Bool) (x : α) (l : List α) :
    List.Perm (insSorted le x l) (x :: l) := by
  induction l with
  | nil => exact List.Perm.refl _
  | cons y ys ih =>
    unfold insSorted
    split
    · exact List.Perm.refl _
    · exact (List.Perm.cons y ih).trans (List.Perm.swap x y ys)

theorem sortByB_perm (le : α → α → Bool) (l : List α) : List.Perm (sortByB le l) l := by
  induction l with
  | nil => exact List.Perm.refl _
  | cons x xs ih =>
    exact (insSorted_perm le x (sortByB le xs)).trans (List.Perm.cons x ih)

theorem insSorted_pairwise {R : α → α → Prop} (le : α → α → Bool)
    (hnot : ∀ a b, le a b = false → R b a)
    (hyes : ∀ a b, le a b = true → R a b)
    (htr : ∀ a b c, R a b → R b c → R a c)
    (x : α) (l : List α) (hl : l.Pairwise R) :
    (insSorted le x l).Pairwise R := by
  induction l with
  | nil => simp [insSorted]
  | cons y ys ih =>
    unfold insSorted
    split
    case isTrue h =>
      have hxy := hyes x y h
      refine List.Pairwise.cons ?_ hl
      intro z hz
      rcases List.mem_cons.mp hz with rfl | hz'
      · exact hxy
      · exact htr x y z hxy (List.rel_of_pairwise_cons hl hz')
    case isFalse h =>
      have hyx := hnot x y (Bool.eq_false_iff.mpr h)
      refine List.Pairwise.cons ?_ (ih hl.of_cons)
      intro z hz
      rcases List.mem_cons.mp ((insSorted_perm le x ys).mem_iff.mp hz) with rfl | hz'
      · exact hyx
      · exact List.rel_of_pairwise_cons hl hz'

theorem sortByB_pairwise {R : α → α → Prop} (le : α → α → Bool)
    (hnot : ∀ a b, le a b = false → R b a)
    (hyes : ∀ a b, le a b = true → R a b)
    (htr : ∀ a b c, R a b → R b c → R a c)
    (l : List α) : (sortByB le l).Pairwise R := by
  induction l with
  | nil => exact List.Pairwise.nil
  | cons x xs ih => exact insSorted_pairwise le hnot hyes htr x _ ih

/-- Two key-sorted association lists that are permutations of each other
and have duplicate-free keys are equal. -/
theorem eq_of_perm_of_sorted_keys {κ β : Type _} [LinearOrder κ] :
    ∀ (l₁ l₂ : List (κ × β)), List.Perm l₁ l₂ →
      l₁.Pairwise (fun p q => p.1 ≤ q.1) → l₂.Pairwise (fun p q => p.1 ≤ q.1) →
      (l₁.map Prod.fst).Nodup → l₁ = l₂ := by
  intro l₁
  induction l₁ with
  | nil =>
    intro l₂ hp _ _ _
    exact hp.nil_eq
  | cons a t₁ ih =>
    intro l₂ hp hs₁ hs₂ hnd
    cases l₂ with
    | nil => exact (List.cons_ne_nil a t₁ hp.eq_nil).elim
    | cons b t₂ =>
      by_cases hab : a = b
      · subst hab
        rw [ih t₂ hp.cons_inv hs₁.of_cons hs₂.of_cons
          (by simpa using (List.nodup_cons.mp (by simpa using hnd)).2)]
      · exfalso
        have hbmem : b ∈ a :: t₁ := hp.mem_iff.mpr (List.mem_cons_self b t₂)
        have hamem : a ∈ b :: t₂ := hp.mem_iff.mp (List.mem_cons_self a t₁)
        have hb : b ∈ t₁ := by
          rcases List.mem_cons.mp hbmem with h | h
          · exact absurd h.symm hab
          · exact h
        have ha : a ∈ t₂ := by
          rcases List.mem_cons.mp hamem with h | h
          · exact absurd h hab
          · exact h
        have heq : a.1 = b.1 :=
          le_antisymm (List.rel_of_pairwise_cons hs₁ hb) (List.rel_of_pairwise_cons hs₂ ha)
        have hmem : a.1 ∈ t₁.map Prod.fst := heq ▸ List.mem_map_of_mem Prod.fst hb
        exact (List.nodup_cons.mp (by simpa using hnd)).1 hmem

theorem sortByB_keyLeB_sorted (l : List (String × Json)) :
    (sortByB keyLeB l).Pairwise (fun p q => p.1 ≤ q.1) :=
  sortByB_pairwise keyLeB
    (fun _ _ h => le_of_not_le (of_decide_eq_false h))
    (fun _ _ h => of_decide_eq_true h)
    (fun _ _ _ => le_trans) l

theorem jsonSortObjVals_eq_map (l : List (String × Json)) :
    jsonSortObjVals l = l.map (fun p => (p.1, jsonSortKeys p.2)) := by
  induction l with
  | nil => rfl
  | cons p t ih =>
    cases p
    simp [jsonSortObjVals, ih]

/-- Canonical (sorted-keys) serialization is invariant under permuting the
entries of a dictionary with duplicate-free keys. -/
theorem canonical_obj_eq_of_perm (d₁ d₂ : List (String × Json)) (hp : d₁.Perm d₂)
    (hnd : (d₁.map Prod.fst).Nodup) :
    jsonDumpsCanonical (Json.obj d₁) = jsonDumpsCanonical (Json.obj d₂) := by
  have hperm : List.Perm (jsonSortObjVals d₁) (jsonSortObjVals d₂) := by
    rw [jsonSortObjVals_eq_map, jsonSortObjVals_eq_map]
    exact hp.map _
  have hkeys : (jsonSortObjVals d₁).map Prod.fst = d₁.map Prod.fst := by
    rw [jsonSortObjVals_eq_map, List.map_map]
    rfl
  have hnd₁ : ((sortByB keyLeB (jsonSortObjVals d₁)).map Prod.fst).Nodup :=
    ((sortByB_perm keyLeB (jsonSortObjVals d₁)).symm.map Prod.fst).nodup
      (by rw [hkeys]; exact hnd)
  have hsorteq : sortByB keyLeB (jsonSortObjVals d₁) = sortByB keyLeB (jsonSortObjVals d₂) :=
    eq_of_perm_of_sorted_keys _ _
      (((sortByB_perm _ _).trans hperm).trans (sortByB_perm _ _).symm)
      (sortByB_keyLeB_sorted _) (sortByB_keyLeB_sorted _) hnd₁
  show jsonDumpsRaw (jsonSortKeys (Json.obj d₁)) = jsonDumpsRaw (jsonSortKeys (Json.obj d₂))
  simp only [jsonSortKeys]
  rw [hsorteq]

namespace AnalyticsService

theorem update_metrics_events (st : AnalyticsState) (t : String) (d : EventData)
    (wid uid sid : Option String) (now : Nat) :
    (update_metrics st t d wid uid sid now).events = st.events := by
  cases wid <;> cases uid <;> cases sid <;>
    simp only [update_metrics] <;> (repeat' split) <;> rfl

/-- The wheel-metrics row written by `_update_metrics` for a spin event. -/
def spinRow (st : AnalyticsState) (d : EventData) (w : String) (now : Nat) : WheelRow :=
  { wheel_title := (dataGet d "wheel_title").getD (Json.str ""),
    total_spins := ((lookupA st.wheel_metrics w).map (·.total_spins)).getD 0 + 1,
    unique_users := distinctSpinUsers st.events w,
    total_entries := (dataGet d "total_entries").getD (Json.num 0),
    created_at := now, updated_at := now }

theorem update_metrics_spin_lookup (st : AnalyticsState) (d : EventData)
    (uid sid : Option String) (now : Nat) (w : String) (hw : w ≠ "") :
    lookupA (update_metrics st "wheel_spin" d (some w) uid sid now).wheel_metrics w =
      some (spinRow st d w now) := by
  have hw' : (w != "") = true := by simpa [bne_iff_ne] using hw
  cases uid <;> cases sid <;>
    simp only [update_metrics, hw', decide_True, Bool.and_self, Bool.true_and,
      if_true, spinRow] <;>
    (repeat' split) <;>
    simp [lookupA_upsert_self]

/-- The event row inserted by a successful `record_event` call. -/
def insertedEvent (event_type : String) (event_data : EventData)
    (wheel_id user_id session_id ip_address user_agent : Option String)
    (now : Nat) : EventRow :=
  { event_type, event_data, wheel_id, user_id, session_id,
    timestamp := now, ip_address, user_agent,
    data_hash := sha256hex (event_type ++ jsonDumpsCanonical (Json.obj event_data)
      ++ toString now) }

theorem record_spin_metrics (st : AnalyticsState) (w : String) (d : EventData)
    (uid sid ip ua : Option String) (now : Nat) (hw : w ≠ "") :
    (record_event st "wheel_spin" d (some w) uid sid ip ua now false false).1 = true ∧
    (record_event st "wheel_spin" d (some w) uid sid ip ua now false false).2.events =
      st.events ++ [insertedEvent "wheel_spin" d (some w) uid sid ip ua now] ∧
    lookupA (record_event st "wheel_spin" d (some w) uid sid ip ua now false false).2.wheel_metrics w =
      some (spinRow { st with
          events := st.events ++ [insertedEvent "wheel_spin" d (some w) uid sid ip ua now] }
        d w now) := by
  refine ⟨rfl, ?_, ?_⟩
  · show (update_metrics _ _ _ _ _ _ _).events = _
    rw [update_metrics_events]
    rfl
  · exact update_metrics_spin_lookup _ d uid sid now w hw

end AnalyticsService

/-! ## Claim theorems -/

open AnalyticsService in
/-- C1: every successful `record_event('wheel_spin', …, wheel_id=W)` call
upserts the WheelMetrics row of W with `total_spins` = prior value (0 when
the row was absent) + 1 and `unique_users` = the number of distinct
non-null `user_id` values over all recorded spin events of W (including
the one just inserted); and after three such calls on wheel `w1` with
payload `winner='Alice', total_entries=5` and three distinct user ids,
`get_wheel_analytics('w1')` reports `total_spins=3`, `unique_users=3` and
the winner-distribution entry `Alice` with count 3. -/
theorem C1_record_spin_updates_metrics :
    (∀ (st : AnalyticsState) (w : String) (d : EventData)
       (uid sid ip ua : Option String) (now : Nat), w ≠ "" →
      (record_event st "wheel_spin" d (some w) uid sid ip ua now false false).1 = true ∧
      ∃ row, lookupA (record_event st "wheel_spin" d (some w) uid sid ip ua
            now false false).2.wheel_metrics w = some row ∧
        row.total_spins = ((lookupA st.wheel_metrics w).map (·.total_spins)).getD 0 + 1 ∧
        row.unique_users = distinctSpinUsers
          (record_event st "wheel_spin" d (some w) uid sid ip ua now false false).2.events w) ∧
    (get_wheel_analytics spinThriceState "w1" 30 3).1.metrics =
      some ⟨3, 3, Json.num 5, 2, 2⟩ ∧
    (get_wheel_analytics spinThriceState "w1" 30 3).1.winner_distribution =
      [⟨"Alice", 3, 2⟩] := by
  refine ⟨?_, by rfl, by rfl⟩
  intro st w d uid sid ip ua now hw
  obtain ⟨h1, h2, h3⟩ := record_spin_metrics st w d uid sid ip ua now hw
  refine ⟨h1, _, h3, ?_, ?_⟩
  · simp only [spinRow]
  · rw [h2]
    rfl

open AnalyticsService in
/-- C1 witness: the invariant applied at a concrete call on the empty
state, discharging the nonempty-wheel-id hypothesis. -/
theorem C1_record_spin_updates_metrics_witness :
    (record_event emptyState "wheel_spin" [] (some "w1") none none none none
      0 false false).1 = true ∧
    ∃ row, lookupA (record_event emptyState "wheel_spin" [] (some "w1") none none none none
          0 false false).2.wheel_metrics "w1" = some row ∧
      row.total_spins = ((lookupA emptyState.wheel_metrics "w1").map (·.total_spins)).getD 0 + 1 ∧
      row.unique_users = distinctSpinUsers
        (record_event emptyState "wheel_spin" [] (some "w1") none none none none
          0 false false).2.events "w1" :=
  C1_record_spin_updates_metrics.1 emptyState "w1" [] none none none none 0 (by decide)

open AnalyticsService in
/-- C3 counterexample: with the event insert succeeding and the
metrics-update step failing, `record_event` still returns `true` — the
spin event is in the log (length 1) while the WheelMetrics table stayed
empty — so a metrics-update failure does not make `record_event` return
false as the claim states. -/
theorem C3_metrics_failure_returns_true :
    (record_event emptyState "wheel_spin" [("winner", Json.str "Alice")]
      (some "w1") none none none none 0 false true).1 = true ∧
    (record_event emptyState "wheel_spin" [("winner", Json.str "Alice")]
      (some "w1") none none none none 0 false true).2.events.length = 1 ∧
    (record_event emptyState "wheel_spin" [("winner", Json.str "Alice")]
      (some "w1") none none none none 0 false true).2.wheel_metrics = [] :=
  ⟨rfl, rfl, rfl⟩

open AnalyticsService in
/-- C3 amended: `record_event` returns false exactly when the event-log
insert fails (leaving the state unchanged); when the insert succeeds it
returns true even if the metrics-update step fails, because
`_update_metrics` catches its own exceptions. -/
theorem C3_return_value_tracks_insert (st : AnalyticsState) (t : String)
    (d : EventData) (wid uid sid ip ua : Option String) (now : Nat)
    (uF : Bool) :
    (record_event st t d wid uid sid ip ua now false uF).1 = true ∧
    (record_event st t d wid uid sid ip ua now true uF).1 = false ∧
    (record_event st t d wid uid sid ip ua now true uF).2 = st := by
  refine ⟨?_, rfl, rfl⟩
  cases uF <;> rfl

open AnalyticsService in
/-- C7 counterexample: a spin recorded with `total_entries=5` stores 5;
a following spin on the same wheel whose payload lacks `total_entries`
resets the stored value to the default 0 instead of leaving 5 in place. -/
theorem C7_total_entries_reset_counterexample :
    (lookupA (record_event emptyState "wheel_spin" [("total_entries", Json.num 5)]
        (some "w1") none none none none 0 false false).2.wheel_metrics "w1").map
      (·.total_entries) = some (Json.num 5) ∧
    (lookupA (record_event
        (record_event emptyState "wheel_spin" [("total_entries", Json.num 5)]
          (some "w1") none none none none 0 false false).2
        "wheel_spin" [] (some "w1") none none none none 1 false false).2.wheel_metrics
      "w1").map (·.total_entries) = some (Json.num 0) :=
  ⟨rfl, rfl⟩

open AnalyticsService in
/-- C7 amended: the metrics update writes
`event_data.get('total_entries', 0)` into the upserted row — the payload
value when the field is present, and the default 0 (not the previously
stored value) when it is absent. -/
theorem C7_total_entries_overwrite (st : AnalyticsState) (w : String)
    (d : EventData) (uid sid ip ua : Option String) (now : Nat) (hw : w ≠ "") :
    (lookupA (record_event st "wheel_spin" d (some w) uid sid ip ua
        now false false).2.wheel_metrics w).map (·.total_entries) =
      some ((dataGet d "total_entries").getD (Json.num 0)) := by
  rw [(record_spin_metrics st w d uid sid ip ua now hw).2.2]
  rfl

open AnalyticsService in
/-- C7 witness: the amended behaviour at concrete inputs, one call with
the field present and one without. -/
theorem C7_total_entries_overwrite_witness :
    (lookupA (record_event emptyState "wheel_spin" [("total_entries", Json.num 7)]
        (some "w2") none none none none 4 false false).2.wheel_metrics "w2").map
      (·.total_entries) =
      some ((dataGet [("total_entries", Json.num 7)] "total_entries").getD (Json.num 0)) ∧
    (lookupA (record_event emptyState "wheel_spin" [] (some "w2") none none none none
        4 false false).2.wheel_metrics "w2").map (·.total_entries) =
      some ((dataGet [] "total_entries").getD (Json.num 0)) :=
  ⟨C7_total_entries_overwrite emptyState "w2" [("total_entries", Json.num 7)]
      none none none none 4 (by decide),
   C7_total_entries_overwrite emptyState "w2" [] none none none none 4 (by decide)⟩

open AnalyticsService in
/-- C8: querying analytics for a wheel with no WheelMetrics row yields the
error payload `Wheel not found` (a normal return, not an exception) and
leaves the whole analytics state — all four tables — unchanged. -/
theorem C8_unknown_wheel_error_no_writes (st : AnalyticsState) (w : String)
    (days now : Nat) (h : lookupA st.wheel_metrics w = none) :
    get_wheel_analytics st w days now = ({ error := some "Wheel not found" }, st) := by
  simp [get_wheel_analytics, h]

open AnalyticsService in
/-- C8 witness: the not-found behaviour at a concrete state and wheel id. -/
theorem C8_unknown_wheel_error_no_writes_witness :
    get_wheel_analytics emptyState "nope" 30 0 =
      ({ error := some "Wheel not found" }, emptyState) :=
  C8_unknown_wheel_error_no_writes emptyState "nope" 30 0 rfl

open SecureCSVValidator in
/-- C2 counterexample: the cell `%%%%` has four distinct-position
occurrences of a suspicious character (more than 3), matches no XSS
pattern directly or after decoding, yet `_check_xss_payload` returns no
tag — because the code counts how many of the seven characters appear at
all (here one), not occurrence positions. -/
theorem C2_suspicious_count_counterexample :
    xssSearch "%%%%" = false ∧
    xssSearch (htmlUnescape "%%%%") = false ∧
    3 < specSuspiciousOccurrences "%%%%" ∧
    check_xss_payload "%%%%" = none :=
  ⟨by decide, by decide, by decide, by decide⟩

open SecureCSVValidator in
/-- C2 amended: for a cell matching no XSS pattern directly or after
HTML-entity decoding, the `suspicious_character_sequence` tag is returned
iff more than 3 of the 7 suspicious characters occur in the cell — distinct
characters present, not distinct positions. -/
theorem C2_suspicious_distinct_chars (cell : String)
    (h1 : xssSearch cell = false)
    (h2 : xssSearch (htmlUnescape cell) = false) :
    check_xss_payload cell = some "suspicious_character_sequence" ↔
      3 < (SUSPICIOUS_CHARS.filter (fun c => cell.toList.contains c)).length := by
  by_cases hc : cell = ""
  · subst hc
    decide
  · unfold check_xss_payload
    rw [if_neg hc, if_neg (by simp [h1]), if_neg (by simp [h2])]
    split
    next h => exact iff_of_true rfl h
    next h => exact iff_of_false (by simp) h

open SecureCSVValidator in
/-- C2 witness: the amended rule applied at a concrete cell holding four
distinct suspicious characters, discharging both no-match hypotheses. -/
theorem C2_suspicious_distinct_chars_witness :
    check_xss_payload "<>\"&" = some "suspicious_character_sequence" :=
  (C2_suspicious_distinct_chars "<>\"&" (by decide) (by decide)).mpr (by decide)

open SecureCSVValidator in
/-- C4 counterexample: `=eval` contains `eval` but `_check_csv_injection`
reports `dangerous_prefix_=` for it, not `dangerous_function_eval` — the
prefix check wins (first match wins). -/
theorem C4_eval_prefix_counterexample :
    listContainsSeq (lowerChars "=eval") ("eval".toList) = true ∧
    check_csv_injection "=eval" = some "dangerous_prefix_=" ∧
    check_csv_injection "=eval" ≠ some "dangerous_function_eval" :=
  ⟨by decide, by decide, by decide⟩

open SecureCSVValidator in
/-- C4 amended: `=1+1`, `+CMD` and `@SUM(A1:A2)` each report their
`dangerous_prefix_*` tag; and a cell containing `eval` (case-insensitive)
reports `dangerous_function_eval` provided no dangerous prefix matches its
stripped form and none of the keywords listed before `eval` (cmd, exec,
system, shell, powershell, bash) occurs in it. -/
theorem C4_dangerous_prefixes_and_eval :
    check_csv_injection "=1+1" = some "dangerous_prefix_=" ∧
    check_csv_injection "+CMD" = some "dangerous_prefix_+" ∧
    check_csv_injection "@SUM(A1:A2)" = some "dangerous_prefix_@" ∧
    (∀ cell : String,
      listContainsSeq (lowerChars cell) ("eval".toList) = true →
      (∀ p ∈ DANGEROUS_PREFIXES, listStartsWith (trimL cell.toList) p.toList = false) →
      (∀ f ∈ (["cmd", "exec", "system", "shell", "powershell", "bash"] : List String),
        listContainsSeq (lowerChars cell) f.toList = false) →
      check_csv_injection cell = some "dangerous_function_eval") := by
  refine ⟨by decide, by decide, by decide, ?_⟩
  intro cell hev hpf hfn
  have hcell : cell ≠ "" := by
    intro h
    subst h
    exact absurd hev (by decide)
  unfold check_csv_injection
  rw [if_neg hcell]
  have hfind : DANGEROUS_PREFIXES.find?
      (fun p => listStartsWith (trimL cell.toList) p.toList) = none := by
    apply List.find?_eq_none.mpr
    intro p hp
    simpa using hpf p hp
  rw [hfind]
  have h1 : listContainsSeq (lowerChars cell) ['c', 'm', 'd'] = false := hfn "cmd" (by simp)
  have h2 : listContainsSeq (lowerChars cell) ['e', 'x', 'e', 'c'] = false := hfn "exec" (by simp)
  have h3 : listContainsSeq (lowerChars cell) ['s', 'y', 's', 't', 'e', 'm'] = false :=
    hfn "system" (by simp)
  have h4 : listContainsSeq (lowerChars cell) ['s', 'h', 'e', 'l', 'l'] = false :=
    hfn "shell" (by simp)
  have h5 : listContainsSeq (lowerChars cell)
      ['p', 'o', 'w', 'e', 'r', 's', 'h', 'e', 'l', 'l'] = false :=
    hfn "powershell" (by simp)
  have h6 : listContainsSeq (lowerChars cell) ['b', 'a', 's', 'h'] = false := hfn "bash" (by simp)
  have hev' : listContainsSeq (lowerChars cell) ['e', 'v', 'a', 'l'] = true := hev
  have hfind2 : DANGEROUS_FUNCTIONS.find?
      (fun f => listContainsSeq (lowerChars cell) f.toList) = some "eval" := by
    simp [DANGEROUS_FUNCTIONS, List.find?, h1, h2, h3, h4, h5, h6, hev']
  rw [hfind2]
  rfl

open SecureCSVValidator in
/-- C4 witness: the amended eval rule applied at the concrete cell `eval`,
discharging all three hypotheses. -/
theorem C4_dangerous_prefixes_and_eval_witness :
    check_csv_injection "eval" = some "dangerous_function_eval" :=
  C4_dangerous_prefixes_and_eval.2.2.2 "eval" (by decide) (by decide) (by decide)

/-- C5: `verify_data_integrity(data, hash)` returns true iff the hash
equals the SHA-256 hex digest of the canonical sorted-keys JSON
serialization of the dictionary; and permuting the entries of a
dictionary (duplicate-free keys, as in every Python dict) never changes
the verification outcome. -/
theorem C5_verify_integrity_canonical :
    (∀ (d : EventData) (h : String),
      AnalyticsService.verify_data_integrity d h = true ↔
        h = sha256hex (jsonDumpsCanonical (Json.obj d))) ∧
    (∀ (d₁ d₂ : EventData) (h : String), List.Perm d₁ d₂ →
      (d₁.map Prod.fst).Nodup →
      AnalyticsService.verify_data_integrity d₁ h =
        AnalyticsService.verify_data_integrity d₂ h) := by
  constructor
  · intro d h
    unfold AnalyticsService.verify_data_integrity
    rw [beq_iff_eq]
    exact eq_comm
  · intro d₁ d₂ h hp hnd
    unfold AnalyticsService.verify_data_integrity
    rw [canonical_obj_eq_of_perm d₁ d₂ hp hnd]

/-- C5 witness: the equivalence and the key-reordering invariance applied
at a concrete two-key dictionary and its transposition. -/
theorem C5_verify_integrity_canonical_witness :
    (AnalyticsService.verify_data_integrity
        [("b", Json.num 1), ("a", Json.num 2)] "0abc" = true ↔
      "0abc" = sha256hex (jsonDumpsCanonical
        (Json.obj [("b", Json.num 1), ("a", Json.num 2)]))) ∧
    AnalyticsService.verify_data_integrity
        [("b", Json.num 1), ("a", Json.num 2)] "0abc" =
      AnalyticsService.verify_data_integrity
        [("a", Json.num 2), ("b", Json.num 1)] "0abc" :=
  ⟨C5_verify_integrity_canonical.1 _ _,
   C5_verify_integrity_canonical.2 _ _ _
     (List.Perm.swap ("a", Json.num 2) ("b", Json.num 1) []) (by decide)⟩

open SecureCSVValidator in
/-- C6: whenever `validate_file_security` returns `valid=true`, the result
carries no `security_risk` and no `security_issues`. -/
theorem C6_valid_implies_no_risk (content filename : String) :
    (validate_file_security content filename).valid = true →
      (validate_file_security content filename).security_risk = none ∧
      (validate_file_security content filename).security_issues = [] := by
  simp only [validate_file_security]
  split
  · simp
  · split
    · simp
    · split
      · intro h
        simp_all
      · split
        · intro h
          simp_all
        · intro _
          exact ⟨rfl, rfl⟩

open SecureCSVValidator in
/-- C6 witness: a concretely valid upload, discharging the `valid=true`
hypothesis by evaluation. -/
theorem C6_valid_implies_no_risk_witness :
    (validate_file_security "name\nAlice" "wheel.csv").security_risk = none ∧
    (validate_file_security "name\nAlice" "wheel.csv").security_issues = [] :=
  C6_valid_implies_no_risk "name\nAlice" "wheel.csv" (by decide)

open CSVService in
/-- C9: comparing any non-empty list against itself passes with integrity
score exactly 1 and empty missing/extra lists (both sides are compared as
sets, so duplicates and order cannot matter). -/
theorem C9_integrity_roundtrip (X : List String) (hX : X ≠ []) :
    validate_data_integrity X X =
      { passed := true, original_count := X.length, processed_count := X.length,
        missing_entries := [], extra_entries := [], integrity_score := 1 } := by
  simp only [validate_data_integrity]
  have hfil : X.dedup.filter (fun a => !X.dedup.contains a) = [] := by
    apply List.filter_eq_nil_iff.mpr
    intro a ha
    simp [List.mem_dedup.mp ha]
  have hfil2 : X.dedup.filter (fun a => X.dedup.contains a) = X.dedup := by
    apply List.filter_eq_self.mpr
    intro a ha
    exact List.elem_iff.mpr ha
  rw [hfil, hfil2]
  have h0 : X.dedup.length ≠ 0 := by
    intro hcontr
    exact hX ((List.dedup_eq_nil X).mp (List.length_eq_zero.mp hcontr))
  have hq : ((X.dedup.length : ℚ)) ≠ 0 := by exact_mod_cast h0
  simp [hX, div_self hq]

open CSVService in
/-- C9 witness: the round trip at the concrete list `["a"]`. -/
theorem C9_integrity_roundtrip_witness :
    validate_data_integrity ["a"] ["a"] =
      { passed := true, original_count := 1, processed_count := 1,
        missing_entries := [], extra_entries := [], integrity_score := 1 } :=
  C9_integrity_roundtrip ["a"] (by decide)

open CSVService in
/-- C10: in `validate_csv_file`, a data row whose cells are all blank after
stripping is skipped silently — the row loop leaves both the entry
accumulator and the warning accumulator unchanged (while still advancing
the row number) — yet every data row, blank or not, is counted in the
reported `total_rows`, which is the number of parsed rows after the
header. -/
theorem C10_blank_rows_skipped_counted :
    (∀ (headers : List String) (i : Nat) (row : List String)
       (rest : List (List String)), blankRow row = true →
      processRowsFrom headers i (row :: rest) = processRowsFrom headers (i + 1) rest) ∧
    (∀ content : String, (validate_csv_file content).valid = true →
      (validate_csv_file content).total_rows = some ((parseCsv content).length - 1)) := by
  constructor
  · intro headers i row rest hb
    simp [processRowsFrom, hb]
  · intro content
    unfold validate_csv_file
    split
    · simp
    · unfold validateCsvRows
      split
      · simp
      · dsimp only
        split
        · simp
        · split
          · simp
          · intro _
            rfl

open CSVService in
/-- C10 witness: the skip rule applied to a concrete blank row, and the
row count for a concrete file with one blank data row. -/
theorem C10_blank_rows_skipped_counted_witness :
    processRowsFrom ["name"] 2 [["", "  "]] = processRowsFrom ["name"] 3 [] ∧
    (validate_csv_file "name\nAlice\n , ").total_rows =
      some ((parseCsv "name\nAlice\n , ").length - 1) :=
  ⟨C10_blank_rows_skipped_counted.1 ["name"] 2 ["", "  "] [] (by decide),
   C10_blank_rows_skipped_counted.2 "name\nAlice\n , " (by decide)⟩
